import Mathlib

/-!
Shallow embedding of `mesh_tensorflow/transformer/attention.py` and proofs
about it.

Modelling conventions:
* `Dimension` mirrors `mtf.Dimension`, a named-size axis; equality compares
  name and size (it is a Python namedtuple).
* Tensor shapes are ordered lists of dimensions.  The mtf shape algebra used
  by the source is modelled at the shape level: `shapeSub` removes the given
  dimensions, `shapeUnion` concatenates keeping first occurrences, and
  `usEinsumShape` computes the default output shape of
  `mtf.layers.us_einsum` (union of the input shapes minus the reduced
  dimensions).
* Elementwise mask / bias computations are modelled pointwise.
* Softmax and logarithm are external numerical kernels; they are modelled
  over `ℚ` with the exponential (and logarithm, where needed) passed in as
  an abstract function, so every definition stays executable.
-/

namespace Mesh

/-- A named axis, mirroring `mtf.Dimension` (a namedtuple of name and size).
Two dimensions are equal iff both the name and the size match. -/
structure Dimension where
  name : String
  size : Nat
deriving DecidableEq, Repr, Inhabited

/-- Shape subtraction: `s - other` keeps the dimensions of `s` that do not
occur in `other` (mtf `Shape.__sub__`). -/
def shapeSub (s other : List Dimension) : List Dimension :=
  s.filter (fun d => d ∉ other)

/-- Union of two shapes, keeping the order of first occurrence
(mtf einsum computes its default output over the union of input shapes). -/
def shapeUnion (a b : List Dimension) : List Dimension :=
  a ++ b.filter (fun d => d ∉ a)

/-- Default output shape of `mtf.layers.us_einsum` applied to two tensors:
the union of the input shapes minus the reduced dimensions. -/
def usEinsumShape (a b : List Dimension) (reduced : List Dimension) :
    List Dimension :=
  shapeSub (shapeUnion a b) reduced

/-!
## Block length search (`local_attention_1d`, lines 430-433)

```python
length_per_split = length_dim.size // length_dim_num_splits
block_length = max(radius, 128)
while length_per_split % block_length != 0:
  block_length -= 1
```

The loop decrements the candidate by one each iteration, so it is the
recursion below on the candidate value.
-/

/-- One step of the candidate search: the largest `b ≤ c` with
`lengthPerSplit % b = 0` (and `0` if no positive candidate is left, which
the caller rules out). -/
def blockLengthFrom (lengthPerSplit : Nat) : Nat → Nat
  | 0 => 0
  | c + 1 =>
    if lengthPerSplit % (c + 1) = 0 then c + 1
    else blockLengthFrom lengthPerSplit c

/-- The block length chosen by `local_attention_1d`: start the candidate at
`max radius 128` and decrement until it divides `lengthPerSplit`. -/
def blockLength (radius lengthPerSplit : Nat) : Nat :=
  blockLengthFrom lengthPerSplit (max radius 128)

/-- The length of each split, `length_dim.size // length_dim_num_splits`
(Python floor division). -/
def lengthPerSplitOf (lengthSize numSplits : Nat) : Nat :=
  lengthSize / numSplits

lemma blockLengthFrom_le (lps : Nat) :
    ∀ c, blockLengthFrom lps c ≤ c := by
  intro c
  induction c with
  | zero => simp [blockLengthFrom]
  | succ n ih =>
    by_cases h : lps % (n + 1) = 0
    · simp [blockLengthFrom, h]
    · simp only [blockLengthFrom, h, if_false]
      exact le_trans ih (Nat.le_succ n)

lemma blockLengthFrom_dvd_pos (lps : Nat) (_hlps : 1 ≤ lps) :
    ∀ c, 1 ≤ c → blockLengthFrom lps c ∣ lps ∧ 1 ≤ blockLengthFrom lps c := by
  intro c
  induction c with
  | zero => intro h; exact absurd h (by simp)
  | succ n ih =>
    intro _
    by_cases h : lps % (n + 1) = 0
    · refine ⟨?_, ?_⟩
      · simpa [blockLengthFrom, h] using (Nat.dvd_of_mod_eq_zero h)
      · simp [blockLengthFrom, h]
    · have hn : 1 ≤ n := by
        rcases Nat.eq_zero_or_pos n with h0 | h1
        · exfalso
          apply h
          simp [h0, Nat.mod_one]
        · exact h1
      have := ih hn
      simpa [blockLengthFrom, h] using this

lemma blockLengthFrom_greatest (lps : Nat) :
    ∀ c d, d ∣ lps → d ≤ c → d ≤ blockLengthFrom lps c := by
  intro c
  induction c with
  | zero => intro d _ hd; simpa [blockLengthFrom] using hd
  | succ n ih =>
    intro d hdvd hle
    by_cases h : lps % (n + 1) = 0
    · simpa [blockLengthFrom, h] using hle
    · have hdn : d ≤ n := by
        rcases Nat.lt_or_ge d (n + 1) with hlt | hge
        · exact Nat.lt_succ_iff.mp hlt
        · exfalso
          have hdeq : d = n + 1 := le_antisymm hle hge
          apply h
          exact Nat.mod_eq_zero_of_dvd (hdeq ▸ hdvd)
      simp only [blockLengthFrom, h, if_false]
      exact ih d hdvd hdn

/-!
## Visibility mask of `local_attention_1d` (lines 469-478)

```python
relative_position = m_pos - q_pos
visible = mtf.equal(q_sequence_id, m_sequence_id)
visible = mtf.logical_and(visible, mtf.greater(relative_position, -radius))
visible = mtf.logical_and(visible, mtf.less_equal(
    relative_position, 0 if fully_autoregressive else radius))
if read_priority is not None:
  write_priority = _reshape_memory(write_priority)
  read_priority = _reshape_query(read_priority)
  visible = mtf.logical_and(
      visible, mtf.greater_equal(read_priority, write_priority))
```

Modelled pointwise over one (query position, memory position) pair.  The
priority branch is taken iff `read_priority` is present; inside the branch
`write_priority` is reshaped unconditionally, which fails when it is absent
(modelled as `none`).
-/

/-- Pointwise visibility from sequence ids and positions only
(lines 469-473). -/
def localVisibleBase (fullyAutoregressive : Bool) (radius : Int)
    (qSeqId mSeqId qPos mPos : Int) : Bool :=
  let relativePosition := mPos - qPos
  let visible := decide (qSeqId = mSeqId)
  let visible := visible && decide (relativePosition > -radius)
  let visible := visible &&
    decide (relativePosition ≤ (if fullyAutoregressive then 0 else radius))
  visible

/-- Pointwise visibility including the priority branch (lines 469-478).
Returns `none` when the code would fail (read priority present, write
priority absent). -/
def localVisible (fullyAutoregressive : Bool) (radius : Int)
    (qSeqId mSeqId qPos mPos : Int)
    (writePriority readPriority : Option Int) : Option Bool :=
  match readPriority with
  | none => some (localVisibleBase fullyAutoregressive radius
      qSeqId mSeqId qPos mPos)
  | some rp =>
    match writePriority with
    | none => none
    | some wp => some (localVisibleBase fullyAutoregressive radius
        qSeqId mSeqId qPos mPos && decide (rp ≥ wp))

/-- C1: in `local_attention_1d` with priorities absent, the visibility mask
is true iff the sequence ids agree and the relative position `m - p`
satisfies `m - p > -radius` and `m - p ≤ 0` (fully autoregressive) or
`m - p ≤ radius` (bidirectional). -/
theorem c1_local_visibility_window (fullyAutoregressive : Bool)
    (radius qSeqId mSeqId p m : Int) :
    localVisible fullyAutoregressive radius qSeqId mSeqId p m none none =
      some true ↔
    (qSeqId = mSeqId ∧ m - p > -radius ∧
      m - p ≤ (if fullyAutoregressive then 0 else radius)) := by
  simp [localVisible, localVisibleBase, and_assoc]

/-- C2: the block-length search of `local_attention_1d` terminates and
returns the largest divisor of `length_per_split` that is at most
`max radius 128`; it is positive, divides `length_per_split`, and on the
quoted instances returns 128 (length 1024, one split, radius 128) and
125 (length 1000, one split, radius 128). -/
theorem c2_block_length_search :
    (∀ lengthSize numSplits radius : Nat,
      1 ≤ lengthPerSplitOf lengthSize numSplits →
      blockLength radius (lengthPerSplitOf lengthSize numSplits) ∣
          lengthPerSplitOf lengthSize numSplits ∧
        1 ≤ blockLength radius (lengthPerSplitOf lengthSize numSplits) ∧
        blockLength radius (lengthPerSplitOf lengthSize numSplits) ≤
          max radius 128 ∧
        (∀ d : Nat, d ∣ lengthPerSplitOf lengthSize numSplits →
          d ≤ max radius 128 →
          d ≤ blockLength radius (lengthPerSplitOf lengthSize numSplits))) ∧
      blockLength 128 (lengthPerSplitOf 1024 1) = 128 ∧
      blockLength 128 (lengthPerSplitOf 1000 1) = 125 := by
  refine ⟨?_, by decide, by decide⟩
  intro lengthSize numSplits radius hpos
  set lps := lengthPerSplitOf lengthSize numSplits with hlps
  have hstart : 1 ≤ max radius 128 := le_trans (by norm_num) (le_max_right _ _)
  obtain ⟨hdvd, hge1⟩ := blockLengthFrom_dvd_pos lps hpos (max radius 128) hstart
  refine ⟨hdvd, hge1, blockLengthFrom_le lps (max radius 128), ?_⟩
  intro d hd hdle
  exact blockLengthFrom_greatest lps (max radius 128) d hd hdle

/-- Witness for C2 at length 1000, one split, radius 128. -/
theorem c2_block_length_search_witness :
    blockLength 128 (lengthPerSplitOf 1000 1) ∣ lengthPerSplitOf 1000 1 :=
  (c2_block_length_search.1 1000 1 128 (by decide)).1

/-!
## AttentionParams (lines 149-352)

The constructor guard (line 188) is

```python
if shared_kv and key_dim != value_dim:
  raise ValueError("shared_kv requires key_dim == value_dim")
```

where `mtf.Dimension` is a namedtuple, so `!=` compares name and size.
Weight shapes are deterministic functions of the constructor arguments; they
are modelled as derived shape functions.  The accessors `compute_kv`,
`compute_k`, `compute_v` guard on the `shared_kv` flag and then contract the
input against the corresponding weight; `compute_output` is modelled at the
shape level.
-/

/-- Parameter bundle fields, mirroring the attributes stored by
`AttentionParams.__init__` (mesh, dtype and the variable contents are
external and carry no information the claims need). -/
structure AttentionParams where
  queryInputDim : Dimension
  memoryInputDim : Dimension
  outputDim : Dimension
  keyDim : Dimension
  valueDim : Dimension
  queryHeadsDims : List Dimension
  memoryHeadsDims : List Dimension
  sharedKV : Bool
  combineDims : Bool
  ensembleDim : Option Dimension
  keepQueryHeadsDims : Bool
deriving DecidableEq, Repr, Inhabited

/-- The q_dims property: query head dims plus the key dim. -/
def qDims (p : AttentionParams) : List Dimension :=
  p.queryHeadsDims ++ [p.keyDim]

/-- The k_dims property: memory head dims plus the key dim. -/
def kDims (p : AttentionParams) : List Dimension :=
  p.memoryHeadsDims ++ [p.keyDim]

/-- The v_dims property: memory head dims plus the value dim. -/
def vDims (p : AttentionParams) : List Dimension :=
  p.memoryHeadsDims ++ [p.valueDim]

/-- The o_dims property: query head dims plus the value dim. -/
def oDims (p : AttentionParams) : List Dimension :=
  p.queryHeadsDims ++ [p.valueDim]

/-- The `_combined_dim` helper: one dimension named after the first of the
list whose size is the product of all sizes (`mtf.Shape(dims).size`).  The
source indexes `dims[0]`, which it only does on nonempty lists. -/
def combinedDim (dims : List Dimension) : Dimension :=
  ⟨(dims.headD default).name, (dims.map Dimension.size).prod⟩

/-- Prepend the ensemble dimension to a weight shape when present. -/
def ensemblePrepend (e : Option Dimension) (s : List Dimension) :
    List Dimension :=
  match e with
  | none => s
  | some d => d :: s

/-- Shape of the query weight wq as built by the constructor. -/
def wqShape (p : AttentionParams) : List Dimension :=
  ensemblePrepend p.ensembleDim
    (if p.combineDims then [p.queryInputDim, combinedDim (qDims p)]
     else p.queryInputDim :: qDims p)

/-- Shape of the key weight wk (also the shape of the fused weight wkv when
`shared_kv` is set, since the source builds wkv with k_shape). -/
def wkShape (p : AttentionParams) : List Dimension :=
  ensemblePrepend p.ensembleDim
    (if p.combineDims then [p.memoryInputDim, combinedDim (kDims p)]
     else p.memoryInputDim :: kDims p)

/-- Shape of the value weight wv as built by the constructor. -/
def wvShape (p : AttentionParams) : List Dimension :=
  ensemblePrepend p.ensembleDim
    (if p.combineDims then [p.memoryInputDim, combinedDim (vDims p)]
     else p.memoryInputDim :: vDims p)

/-- Shape of the output weight wo as built by the constructor. -/
def woShape (p : AttentionParams) : List Dimension :=
  ensemblePrepend p.ensembleDim
    (if p.combineDims then [combinedDim (oDims p), p.outputDim]
     else oDims p ++ [p.outputDim])

/-- The `AttentionParams.__init__` constructor: the line-188 guard, then the
field assignments (variable creation is external and always succeeds). -/
def mkAttentionParams (queryInputDim memoryInputDim outputDim
    keyDim valueDim : Dimension)
    (queryHeadsDims memoryHeadsDims : List Dimension)
    (sharedKV combineDims : Bool) (ensembleDim : Option Dimension)
    (keepQueryHeadsDims : Bool) : Except String AttentionParams :=
  if sharedKV && (keyDim != valueDim) then
    .error "shared_kv requires key_dim == value_dim"
  else
    .ok { queryInputDim := queryInputDim, memoryInputDim := memoryInputDim,
          outputDim := outputDim, keyDim := keyDim, valueDim := valueDim,
          queryHeadsDims := queryHeadsDims,
          memoryHeadsDims := memoryHeadsDims,
          sharedKV := sharedKV, combineDims := combineDims,
          ensembleDim := ensembleDim,
          keepQueryHeadsDims := keepQueryHeadsDims }

/-- Replace the last dimension of a shape by a list of dimensions
(`mtf.replace_dimensions(ret, ret.shape.dims[-1], dims)`). -/
def replaceLastWith (s new : List Dimension) : List Dimension :=
  s.dropLast ++ new

/-- Shape-level `compute_kv` (lines 256-272): guard, contraction over the
memory input dim against wkv, then un-fusing the combined dim. -/
def computeKVShape (p : AttentionParams) (x : List Dimension) :
    Except String (List Dimension) :=
  if !p.sharedKV then
    .error "compute_kv can only be called with shared_kv"
  else
    let ret := usEinsumShape x (wkShape p) [p.memoryInputDim]
    .ok (if p.combineDims then replaceLastWith ret (kDims p) else ret)

/-- Shape-level `compute_k` (lines 274-290). -/
def computeKShape (p : AttentionParams) (x : List Dimension) :
    Except String (List Dimension) :=
  if p.sharedKV then
    .error "compute_k cannot be called with shared_kv"
  else
    let ret := usEinsumShape x (wkShape p) [p.memoryInputDim]
    .ok (if p.combineDims then replaceLastWith ret (kDims p) else ret)

/-- Shape-level `compute_v` (lines 292-308). -/
def computeVShape (p : AttentionParams) (x : List Dimension) :
    Except String (List Dimension) :=
  if p.sharedKV then
    .error "compute_v cannot be called with shared_kv"
  else
    let ret := usEinsumShape x (wvShape p) [p.memoryInputDim]
    .ok (if p.combineDims then replaceLastWith ret (vDims p) else ret)

/-- Second-to-last element of a shape (`shape.dims[-2]`). -/
def dimsSecondLast (s : List Dimension) : Dimension :=
  (s.reverse.drop 1).headD default

/-- Shape-level `compute_output` (lines 310-332) with the default
`output_shape=None`: under `combine_dims` the o_dims are moved to the end
(transpose) and replaced by the fused wo dim and the fused dim is the
reduced dim; otherwise the reduced dims are o_dims; when
`keep_query_heads_dims` is set the reduced dims are overridden to just the
value dim; finally us_einsum against wo. -/
def computeOutputShape (p : AttentionParams) (oShape : List Dimension) :
    List Dimension :=
  let step :=
    if p.combineDims then
      let fused := dimsSecondLast (woShape p)
      (shapeSub oShape (oDims p) ++ [fused], [fused])
    else
      (oShape, oDims p)
  let reduced := if p.keepQueryHeadsDims then [p.valueDim] else step.2
  usEinsumShape step.1 (woShape p) reduced

/-- C4 counterexample: with shared_kv=true, equal key and value sizes (8 and
8) but different names, the constructor still fails, refuting "whenever the
key and value axis sizes are equal construction succeeds". -/
theorem c4_counterexample :
    (⟨"d_k", 8⟩ : Dimension).size = (⟨"d_v", 8⟩ : Dimension).size ∧
    (mkAttentionParams ⟨"d_model", 4⟩ ⟨"d_model", 4⟩ ⟨"d_model", 4⟩
      ⟨"d_k", 8⟩ ⟨"d_v", 8⟩ [⟨"heads", 2⟩] [⟨"heads", 2⟩]
      true true none false).isOk = false := by
  constructor
  · rfl
  · decide

/-- C4 amended: with shared_kv=true, construction succeeds iff the key and
value dimensions are equal as whole dimensions (same name and same size);
it fails exactly when they differ in name or size. -/
theorem c4_shared_kv_guard (qi mi od kd vd : Dimension)
    (qh mh : List Dimension) (cd : Bool) (ens : Option Dimension)
    (kq : Bool) :
    (mkAttentionParams qi mi od kd vd qh mh true cd ens kq).isOk = true ↔
      kd = vd := by
  by_cases h : kd = vd <;>
    simp [mkAttentionParams, h, Except.isOk, Except.toBool]

/-- C5: for every parameter bundle, compute_kv fails iff shared_kv is
false, and compute_k and compute_v each fail iff shared_kv is true; the
flag is the only configuration condition checked. -/
theorem c5_accessor_guards (p : AttentionParams) (x : List Dimension) :
    ((computeKVShape p x).isOk = true ↔ p.sharedKV = true) ∧
    ((computeKShape p x).isOk = true ↔ p.sharedKV = false) ∧
    ((computeVShape p x).isOk = true ↔ p.sharedKV = false) := by
  cases h : p.sharedKV <;>
    simp [computeKVShape, computeKShape, computeVShape, h, Except.isOk,
      Except.toBool]

/-- Concrete parameter bundle for C8, combine_dims=true,
keep_query_heads_dims=true, built through the constructor. -/
def c8Params : AttentionParams :=
  match mkAttentionParams ⟨"d_model", 4⟩ ⟨"d_model", 4⟩ ⟨"d_model", 4⟩
      ⟨"d_k", 3⟩ ⟨"d_v", 3⟩ [⟨"heads", 2⟩] [⟨"heads", 2⟩]
      false true none true with
  | .ok p => p
  | .error _ => default

/-- Concrete input shape for C8: batch, length, one query head axis, value
axis. -/
def c8OShape : List Dimension :=
  [⟨"batch", 2⟩, ⟨"length", 5⟩, ⟨"heads", 2⟩, ⟨"d_v", 3⟩]

/-- C8 counterexample: with combine_dims=true and
keep_query_heads_dims=true, the head and value axes of o are first fused
into one combined axis (here ("heads", 6)), so the query head axis
("heads", 2) of the input is not retained in the result, refuting the
claim for the combine_dims=true half. -/
theorem c8_counterexample :
    c8Params.keepQueryHeadsDims = true ∧
    c8Params.combineDims = true ∧
    (⟨"heads", 2⟩ : Dimension) ∈ c8OShape ∧
    (⟨"heads", 2⟩ : Dimension) ∉ computeOutputShape c8Params c8OShape := by
  refine ⟨rfl, rfl, ?_, ?_⟩ <;> decide

/-- C8 amended: for parameters with keep_query_heads_dims=true and
combine_dims=false, compute_output reduces only the value axis: every axis
of o other than the value axis (in particular every query head axis)
survives into the result, any axis of o missing from the result is the
value axis, and the output axis is present whenever it differs from the
value axis. -/
theorem c8_keep_heads_no_combine (p : AttentionParams)
    (oShape : List Dimension)
    (hk : p.keepQueryHeadsDims = true) (hc : p.combineDims = false) :
    (∀ d, d ∈ oShape → d ≠ p.valueDim →
      d ∈ computeOutputShape p oShape) ∧
    (∀ d, d ∈ oShape → d ∉ computeOutputShape p oShape →
      d = p.valueDim) ∧
    (p.outputDim ≠ p.valueDim →
      p.outputDim ∈ computeOutputShape p oShape) := by
  simp only [computeOutputShape, hk, hc, if_true, if_false,
    Bool.false_eq_true, usEinsumShape, shapeSub, shapeUnion]
  refine ⟨?_, ?_, ?_⟩
  · intro d hd hne
    simp only [List.mem_filter, List.mem_append, decide_eq_true_eq]
    exact ⟨Or.inl hd, by simpa using hne⟩
  · intro d hd hnot
    by_contra hne
    apply hnot
    simp only [List.mem_filter, List.mem_append, decide_eq_true_eq]
    exact ⟨Or.inl hd, by simpa using hne⟩
  · intro hne
    have hwo : p.outputDim ∈ woShape p := by
      cases hens : p.ensembleDim <;>
        simp [woShape, hc, ensemblePrepend, hens]
    simp only [List.mem_filter, List.mem_append, decide_eq_true_eq]
    refine ⟨?_, by simpa using hne⟩
    by_cases ho : p.outputDim ∈ oShape
    · exact Or.inl ho
    · refine Or.inr ?_
      simp [List.mem_filter, hwo, ho]

/-- Concrete parameter bundle for the C8 amended witness:
combine_dims=false, keep_query_heads_dims=true. -/
def c8ParamsNC : AttentionParams :=
  match mkAttentionParams ⟨"d_model", 4⟩ ⟨"d_model", 4⟩ ⟨"d_model", 4⟩
      ⟨"d_k", 3⟩ ⟨"d_v", 3⟩ [⟨"heads", 2⟩] [⟨"heads", 2⟩]
      false false none true with
  | .ok p => p
  | .error _ => default

/-- Witness for the C8 amended theorem: the head axis survives
compute_output on a concrete shape. -/
theorem c8_keep_heads_no_combine_witness :
    (⟨"heads", 2⟩ : Dimension) ∈ computeOutputShape c8ParamsNC c8OShape :=
  (c8_keep_heads_no_combine c8ParamsNC c8OShape (by decide)
    (by decide)).1 ⟨"heads", 2⟩ (by decide) (by decide)

/-- C3: with both priorities supplied, any pair whose read priority is
below the write priority is invisible, whatever the window and sequence
ids say. -/
theorem c3_priority_masking (fullyAutoregressive : Bool)
    (radius qSeqId mSeqId p m wp rp : Int) (h : rp < wp) :
    localVisible fullyAutoregressive radius qSeqId mSeqId p m
      (some wp) (some rp) = some false := by
  have hnot : ¬(rp ≥ wp) := not_le.mpr h
  simp [localVisible, hnot]

/-- Witness for C3 at a concrete in-window pair with rp=3 < wp=5. -/
theorem c3_priority_masking_witness :
    localVisible true 128 1 1 0 0 (some 5) (some 3) = some false :=
  c3_priority_masking true 128 1 1 0 0 5 3 (by decide)

/-- C10: supplying a write priority while the read priority is absent does
not change the visibility mask: the priority conjunct is added iff the
read priority is present. -/
theorem c10_write_priority_alone_ignored (fullyAutoregressive : Bool)
    (radius qSeqId mSeqId p m wp : Int) :
    localVisible fullyAutoregressive radius qSeqId mSeqId p m
        (some wp) none =
      localVisible fullyAutoregressive radius qSeqId mSeqId p m
        none none := rfl

/-!
## Visibility-to-bias converter and the attention primitive

`visibility_mask_to_attention_bias` (line 498) is
`cast(not(visible), dtype) * -1e9`, elementwise.  The numeric dtype is
modelled as `ℚ`; the index type `I` stands for the (arbitrary) shape of the
mask, so the result is indexed identically (same shape).
-/

/-- Cast of a boolean to the numeric dtype (`mtf.cast`). -/
def castBool (b : Bool) : ℚ := if b then 1 else 0

/-- The `visibility_mask_to_attention_bias` function, pointwise:
`cast(not(visible)) * -1e9`. -/
def visibilityMaskToAttentionBias {I : Type} (visible : I → Bool) :
    I → ℚ :=
  fun i => castBool (!(visible i)) * (-1e9)

/-- C9: the bias returned by `visibility_mask_to_attention_bias` is indexed
like the mask (a function on the same index set, in the requested dtype)
and is 0 exactly where the mask is true and -1e9 exactly where it is
false. -/
theorem c9_bias_converter {I : Type} (visible : I → Bool) (i : I) :
    (visibilityMaskToAttentionBias visible i = 0 ↔ visible i = true) ∧
    (visibilityMaskToAttentionBias visible i = -1e9 ↔
      visible i = false) := by
  cases h : visible i <;>
    simp [visibilityMaskToAttentionBias, castBool, h] <;> norm_num

/-!
## The attention primitive (lines 66-76)

```python
logits = mtf.layers.us_einsum([q, k], reduced_dims=[key_dim])
if bias is not None:
  logits += bias
weights = mtf.softmax(logits, memory_length_dim, extra_logit=extra_logit)
if dropout_rate != 0.0:
  weights = mtf.dropout(...)
outputs_shape = q.shape - key_dim + value_dim
outputs = mtf.einsum([weights, v], outputs_shape)
```

Pointwise model: `Q` indexes the non-key query axes, `M` the memory length
axis, `DK` the key channels, `DV` the value channels.  The softmax kernel
is external; it is modelled as the mathematical softmax with the
exponential passed in abstractly (the max-subtraction inside `mtf.softmax`
is a stabilization of the same function) and the optional extra logit as an
extra normalizer term.  Dropout draws are external randomness, modelled as
a noise oracle that the `dropout_rate != 0` branch would multiply in.
-/

/-- Attention logits: contraction of q and k over the key channels, plus
the optional bias. -/
def attentionLogits {Q M DK : Type} [Fintype DK] (q : Q → DK → ℚ)
    (k : M → DK → ℚ) (bias : Option (Q → M → ℚ)) : Q → M → ℚ :=
  fun i m =>
    (∑ d : DK, q i d * k m d) +
      (match bias with
       | none => 0
       | some b => b i m)

/-- Softmax over the memory axis with an optional extra logit in the
normalizer (`mtf.softmax`). -/
def softmaxWith {Q M : Type} [Fintype M] (exp : ℚ → ℚ)
    (extraLogit : Option ℚ) (x : Q → M → ℚ) : Q → M → ℚ :=
  fun i m =>
    exp (x i m) /
      ((∑ mp : M, exp (x i mp)) +
        (match extraLogit with
         | none => 0
         | some e => exp e))

/-- The `attention` function, pointwise: logits, optional bias, softmax,
the dropout branch, and the contraction against v over the memory axis. -/
def attentionOut {Q M DK DV : Type} [Fintype M] [Fintype DK]
    (exp : ℚ → ℚ) (q : Q → DK → ℚ) (k : M → DK → ℚ) (v : M → DV → ℚ)
    (bias : Option (Q → M → ℚ)) (dropoutRate : ℚ) (noise : Q → M → ℚ)
    (extraLogit : Option ℚ) : Q → DV → ℚ :=
  let weights0 := softmaxWith exp extraLogit (attentionLogits q k bias)
  let weights :=
    if dropoutRate ≠ 0 then fun i m => weights0 i m * noise i m
    else weights0
  fun i j => ∑ m : M, weights i m * v m j

/-- The output shape computed on line 74: `q.shape - key_dim + value_dim`
in the mtf shape algebra. -/
def attentionOutputShape (qShape : List Dimension)
    (keyDim valueDim : Dimension) : List Dimension :=
  shapeSub qShape [keyDim] ++ [valueDim]

/-- C6: the attention output shape is the query shape with the key axis
removed and the value axis appended; and with bias=None, dropout_rate=0 and
a single memory position the output is v broadcast over the query axes
(the softmax weight over one position is 1). -/
theorem c6_attention_shape_and_single_memory :
    (∀ (qShape : List Dimension) (keyDim valueDim d : Dimension),
      d ∈ attentionOutputShape qShape keyDim valueDim ↔
        ((d ∈ qShape ∧ d ≠ keyDim) ∨ d = valueDim)) ∧
    (∀ (Q DK DV : Type) [Fintype DK] (exp : ℚ → ℚ),
      (∀ x, exp x ≠ 0) →
      ∀ (q : Q → DK → ℚ) (k : Fin 1 → DK → ℚ) (v : Fin 1 → DV → ℚ)
        (noise : Q → Fin 1 → ℚ) (i : Q) (j : DV),
      attentionOut exp q k v none 0 noise none i j = v 0 j) := by
  constructor
  · intro qShape keyDim valueDim d
    simp [attentionOutputShape, shapeSub]
  · intro Q DK DV _ exp hexp q k v noise i j
    simp only [attentionOut, softmaxWith, ne_eq, not_true_eq_false,
      if_false]
    rw [Fin.sum_univ_one, Fin.sum_univ_one, add_zero,
      div_self (hexp _), one_mul]

/-- Witness for C6: concrete one-position attention with constant inputs
returns the value 37. -/
theorem c6_attention_witness :
    attentionOut (fun _ => (1 : ℚ))
      (fun (_ : Fin 1) (_ : Fin 1) => (1 : ℚ))
      (fun (_ : Fin 1) (_ : Fin 1) => (1 : ℚ))
      (fun (_ : Fin 1) (_ : Fin 1) => (37 : ℚ)) none 0
      (fun _ _ => 0) none 0 0 = 37 :=
  c6_attention_shape_and_single_memory.2 (Fin 1) (Fin 1) (Fin 1)
    (fun _ => 1) (fun _ => one_ne_zero) _ _ _ _ 0 0

/-!
## Hybrid attention (lines 124-139)

```python
doubly_coeff = mtf.get_variable(..., "doubly_coeff", [],
    initializer=tf.constant_initializer(0.5), ...)
doubly_coeff = mtf.maximum(mtf.minimum(doubly_coeff, 1.), 0.)
upper_weights = mtf.softmax(logits, memory_length_dim, extra_logit=...)
lower_log_weights = mtf.log_softmax(logits, query_length_dim, ...)
doubly_weights = mtf.softmax(lower_log_weights, memory_length_dim, ...)
weights = doubly_coeff * doubly_weights + (1. - doubly_coeff) * upper_weights
```

The second line rebinds the local Python name to the clamped read; the
stored variable is never assigned.  `L` indexes the query length axis (the
freshly built "length" dimension), `M` the memory axis; `lg` is the
external logarithm kernel used by `log_softmax`.
-/

/-- Row softmax over the memory axis, the "upper" weights. -/
def upperWeights {L M : Type} [Fintype M] (exp : ℚ → ℚ)
    (extraLogit : Option ℚ) (logits : L → M → ℚ) : L → M → ℚ :=
  softmaxWith exp extraLogit logits

/-- Log-softmax over the query length axis: logit minus the log of the
normalizer over that axis (with the optional extra term). -/
def lowerLogWeights {L M : Type} [Fintype L] (exp lg : ℚ → ℚ)
    (extraLogit : Option ℚ) (logits : L → M → ℚ) : L → M → ℚ :=
  fun i m =>
    logits i m -
      lg ((∑ ip : L, exp (logits ip m)) +
        (match extraLogit with
         | none => 0
         | some e => exp e))

/-- Doubly-normalized weights: softmax over the memory axis of the lower
log weights. -/
def doublyWeights {L M : Type} [Fintype L] [Fintype M] (exp lg : ℚ → ℚ)
    (extraLogit : Option ℚ) (logits : L → M → ℚ) : L → M → ℚ :=
  softmaxWith exp extraLogit (lowerLogWeights exp lg extraLogit logits)

/-- The clamp applied on every read of doubly_coeff:
`max(min(coeff, 1), 0)`. -/
def clampCoeff (c : ℚ) : ℚ := max (min c 1) 0

/-- The value the doubly_coeff variable is created with
(`tf.constant_initializer(0.5)`). -/
def doublyCoeffInit : ℚ := 1 / 2

/-- The hybrid_attention weight computation as a function of the stored
variable value: read the variable, clamp the read value, mix the two
weight distributions; the stored value is returned unchanged because the
source never assigns back to the variable. -/
def hybridAttentionWeights {L M : Type} [Fintype L] [Fintype M]
    (exp lg : ℚ → ℚ) (extraLogit : Option ℚ) (logits : L → M → ℚ)
    (storedCoeff : ℚ) : (L → M → ℚ) × ℚ :=
  let c := clampCoeff storedCoeff
  (fun i m =>
      c * doublyWeights exp lg extraLogit logits i m +
        (1 - c) * upperWeights exp extraLogit logits i m,
   storedCoeff)

/-- C7: for every stored coefficient value c, the hybrid attention weights
are `clamp(c) * doubly + (1 - clamp(c)) * upper` with
`clamp(c) = max(min(c,1),0)` in [0, 1]; the stored value is left unchanged
(the clamp happens on the read, not in the store), and the variable is
created at 0.5. -/
theorem c7_hybrid_mixing {L M : Type} [Fintype L] [Fintype M]
    (exp lg : ℚ → ℚ) (extraLogit : Option ℚ) (logits : L → M → ℚ)
    (c : ℚ) :
    ((hybridAttentionWeights exp lg extraLogit logits c).1 =
      fun i m =>
        clampCoeff c * doublyWeights exp lg extraLogit logits i m +
          (1 - clampCoeff c) * upperWeights exp extraLogit logits i m) ∧
    0 ≤ clampCoeff c ∧ clampCoeff c ≤ 1 ∧
    (hybridAttentionWeights exp lg extraLogit logits c).2 = c ∧
    doublyCoeffInit = 1 / 2 := by
  refine ⟨rfl, le_max_right _ _, ?_, rfl, rfl⟩
  exact max_le (min_le_right c 1) zero_le_one

end Mesh
